import Mathlib

/-!
Shallow embedding of the DLL injection engine (`src/injector/injector.py`)
of the UpadtedMethod repository.

The Windows API surface used by the code (`kernel32` via ctypes) is modelled
by an oracle structure `OS` fixing the outcome of every OS call, together
with an explicit injector state `St` that carries the process-handle field,
a model of the remote memory of the target process (an association list of
byte cells), the set of live remote allocations, the ordered trace of OS
calls issued, and the log lines emitted.  Each Python method becomes a Lean
function from a state to a result paired with the successor state; a raised
Python exception becomes `Except.error`.  Python try/finally semantics are
modelled explicitly: an exception raised inside a finally block replaces the
in-flight exception, while a finally block that only logs preserves it.
-/

deriving instance DecidableEq for Except

namespace DLLInjector

/-- One OS-level call issued by the injector, as recorded in the trace. -/
inductive Event where
  | openProcess (access pid : Nat)
  | closeHandle (h : Nat)
  | virtualAllocEx (h len flags perms : Nat)
  | writeProcessMemory (h addr : Nat) (payload : List Nat)
  | readProcessMemory (h addr len : Nat)
  | virtualFreeEx (h addr size flags : Nat)
  | createRemoteThread (h addr arg : Nat)
  | waitForSingleObject (h timeout : Nat)
  | getExitCodeThread (h : Nat)
  | getModuleHandleA (name : String)
  | getProcAddress (base : Nat) (name : String)
  | loadLibraryA (path : List Nat)
  | freeLibrary (base : Nat)
deriving DecidableEq

/-- The Python exception kinds raised by the injector module.  The optional
`Nat` payloads carry the `GetLastError` code embedded in the message. -/
inductive PyError where
  | dllInjectionError (code : Option Nat)
  | processAccessError (code : Nat)
  | memoryAllocationError (code : Nat)
  | fileNotFoundError (msg : String)
  | unicodeEncodeError
deriving DecidableEq

/-- Oracle fixing the result of every kernel32 call the injector makes.
A returned handle or address of `0` models the NULL failure sentinel. -/
structure OS where
  openProcess : Nat → Nat → Nat
  closeOk : Nat → Bool
  allocResult : Nat → Nat
  writeOk : Nat → Bool
  readOk : Nat → Bool
  freeOk : Nat → Bool
  createThreadResult : Nat → Nat → Nat
  waitResult : Nat → Nat
  exitCodeOk : Nat → Bool
  exitCodeValue : Nat → Nat
  getModuleHandle : String → Nat
  procAddr : Nat → String → Nat
  loadLibrary : List Nat → Nat
  freeLibOk : Nat → Bool
  lastError : Nat

/-- Injector state: the `DLLInjector` instance fields (`process_id`,
`proc_handle`, with `0` standing for Python `None`, matching the code only
ever testing the handle for truthiness), plus the modelled remote world:
memory cells, live allocations, the OS-call trace, and the log lines. -/
structure St where
  processId : Nat
  procHandle : Nat
  mem : List (Nat × Nat)
  allocated : List Nat
  trace : List Event
  logs : List String
deriving DecidableEq

/-- Record an OS call in the trace. -/
def emit (s : St) (e : Event) : St :=
  { s with trace := s.trace ++ [e] }

/-- Record a log line. -/
def logMsg (s : St) (m : String) : St :=
  { s with logs := s.logs ++ [m] }

/-- PROCESS_ALL_ACCESS, as assembled in the source. -/
def ACCESS_MASK : Nat := 0x000F0000 ||| 0x00100000 ||| 0x00000FFF

/-- MEM_COMMIT | MEM_RESERVE. -/
def MEM_FLAGS : Nat := 0x00001000 ||| 0x00002000

/-- MEM_RELEASE. -/
def FREE_MEM : Nat := 0x8000

/-- PAGE_EXECUTE_READWRITE. -/
def RWX_PERMISSIONS : Nat := 0x40

/-- `DLLInjector.cleanup`: if a handle is held, issue `CloseHandle`; on OS
failure raise `DLLInjectionError` before the handle field is cleared; the
field is set to `None` only on the non-raising paths. -/
def cleanup (os : OS) (s : St) : Except PyError Unit × St :=
  if s.procHandle ≠ 0 then
    let h := s.procHandle
    let s1 := logMsg s ("Cleaning up process handle for PID: " ++ toString s.processId)
    let s2 := emit s1 (Event.closeHandle h)
    if os.closeOk h then
      let s3 := logMsg s2 ("Process handle cleaned up successfully")
      (Except.ok (), { s3 with procHandle := 0 })
    else
      let s3 := logMsg s2 ("Failed to close process handle (Error: " ++ toString os.lastError ++ ")")
      (Except.error (PyError.dllInjectionError (some os.lastError)), s3)
  else
    (Except.ok (), { s with procHandle := 0 })

/-- `DLLInjector.attach_to_pid`: run `cleanup` first, store the pid, call
`OpenProcess` with PROCESS_ALL_ACCESS, and raise `ProcessAccessError`
carrying `GetLastError` when the call returns NULL. -/
def attach_to_pid (os : OS) (pid : Nat) (s : St) : Except PyError Unit × St :=
  match cleanup os s with
  | (Except.error e, s1) => (Except.error e, s1)
  | (Except.ok _, s1) =>
    let s2 := { s1 with processId := pid }
    let h := os.openProcess ACCESS_MASK pid
    let s3 := emit { s2 with procHandle := h } (Event.openProcess ACCESS_MASK pid)
    if h = 0 then
      (Except.error (PyError.processAccessError os.lastError), s3)
    else
      (Except.ok (), s3)

/-- Store the bytes of `payload` at consecutive addresses starting at
`addr`, newest cells in front. -/
def storeBytes : List (Nat × Nat) → Nat → List Nat → List (Nat × Nat)
  | mem, _, [] => mem
  | mem, addr, b :: rest => storeBytes ((addr, b) :: mem) (addr + 1) rest

/-- Read one modelled remote-memory byte (0 for a never-written cell). -/
def readByte (mem : List (Nat × Nat)) (a : Nat) : Nat :=
  match mem.find? (fun p => p.1 == a) with
  | some p => p.2
  | none => 0

/-- Read `len` consecutive modelled remote-memory bytes from `addr`. -/
def readBytes (mem : List (Nat × Nat)) (addr len : Nat) : List Nat :=
  (List.range len).map (fun i => readByte mem (addr + i))

/-- `DLLInjector.write_to_memory`: `WriteProcessMemory` of the whole
payload; raise `DLLInjectionError` with the OS code on failure. -/
def write_to_memory (os : OS) (address : Nat) (payload : List Nat) (s : St) :
    Except PyError Unit × St :=
  let s1 := emit s (Event.writeProcessMemory s.procHandle address payload)
  if os.writeOk address then
    (Except.ok (), { s1 with mem := storeBytes s1.mem address payload })
  else
    (Except.error (PyError.dllInjectionError (some os.lastError)), s1)

/-- `DLLInjector.read_memory_region`: `ReadProcessMemory` into a buffer of
`length` bytes, returned raw on success. -/
def read_memory_region (os : OS) (address length : Nat) (s : St) :
    Except PyError (List Nat) × St :=
  let s1 := emit s (Event.readProcessMemory s.procHandle address length)
  if os.readOk address then
    (Except.ok (readBytes s1.mem address length), s1)
  else
    (Except.error (PyError.dllInjectionError (some os.lastError)), s1)

/-- `DLLInjector.allocate_remote_buffer`: `VirtualAllocEx` with
MEM_COMMIT|MEM_RESERVE and PAGE_EXECUTE_READWRITE, raising
`MemoryAllocationError` on NULL, then `write_to_memory` of the data.  The
source has no handler around the write: a write failure propagates with the
fresh allocation still live. -/
def allocate_remote_buffer (os : OS) (data : List Nat) (length : Nat) (s : St) :
    Except PyError Nat × St :=
  let s1 := emit s (Event.virtualAllocEx s.procHandle length MEM_FLAGS RWX_PERMISSIONS)
  let address := os.allocResult length
  if address = 0 then
    (Except.error (PyError.memoryAllocationError os.lastError), s1)
  else
    let s2 := { s1 with allocated := s1.allocated ++ [address] }
    match write_to_memory os address data s2 with
    | (Except.error e, s3) => (Except.error e, s3)
    | (Except.ok _, s3) => (Except.ok address, s3)

/-- `DLLInjector.release_remote_buffer`: `VirtualFreeEx` with size 0 and
MEM_RELEASE; the `length` argument only appears in the log line. -/
def release_remote_buffer (os : OS) (addr : Nat) (length : Nat) (s : St) :
    Except PyError Unit × St :=
  let s1 := logMsg s ("Releasing remote buffer at " ++ toString addr ++ " (" ++ toString length ++ " bytes)")
  let s2 := emit s1 (Event.virtualFreeEx s1.procHandle addr 0 FREE_MEM)
  if os.freeOk addr then
    let s3 := { s2 with allocated := s2.allocated.erase addr }
    (Except.ok (), logMsg s3 ("Successfully released buffer at " ++ toString addr))
  else
    (Except.error (PyError.memoryAllocationError os.lastError), s2)

/-- `DLLInjector.get_func_address`: `GetModuleHandleA` then
`GetProcAddress`, raising `DLLInjectionError` with the OS code on either
NULL result. -/
def get_func_address (os : OS) (dll func : String) (s : St) :
    Except PyError Nat × St :=
  let s1 := emit s (Event.getModuleHandleA dll)
  let module_base := os.getModuleHandle dll
  if module_base = 0 then
    (Except.error (PyError.dllInjectionError (some os.lastError)), s1)
  else
    let s2 := emit s1 (Event.getProcAddress module_base func)
    let func_ptr := os.procAddr module_base func
    if func_ptr = 0 then
      (Except.error (PyError.dllInjectionError (some os.lastError)), s2)
    else
      (Except.ok func_ptr, s2)

/-- The try-block body of `DLLInjector.run_remote_function`:
`CreateRemoteThread`, `WaitForSingleObject` (INFINITE),
`GetExitCodeThread`, each raising `DLLInjectionError` with the OS code on
failure.  No `CloseHandle` is issued on the thread handle anywhere. -/
def run_thread_body (os : OS) (addr arg_ptr : Nat) (s : St) :
    Except PyError Nat × St :=
  let s2 := emit s (Event.createRemoteThread s.procHandle addr arg_ptr)
  let thread := os.createThreadResult addr arg_ptr
  if thread = 0 then
    (Except.error (PyError.dllInjectionError (some os.lastError)), s2)
  else
    let s3 := emit s2 (Event.waitForSingleObject thread 0xFFFFFFFF)
    if os.waitResult thread = 0xFFFFFFFF then
      (Except.error (PyError.dllInjectionError (some os.lastError)), s3)
    else
      let s4 := emit s3 (Event.getExitCodeThread thread)
      if os.exitCodeOk thread then
        (Except.ok (os.exitCodeValue thread), s4)
      else
        (Except.error (PyError.dllInjectionError (some os.lastError)), s4)

/-- `DLLInjector.run_remote_function`: allocate-and-write the argument
buffer, then the try block `run_thread_body`; the finally block releases
the argument buffer, and per Python semantics an exception raised by that
release replaces the in-flight body result. -/
def run_remote_function (os : OS) (addr : Nat) (arg_data : List Nat) (s : St) :
    Except PyError Nat × St :=
  match allocate_remote_buffer os arg_data arg_data.length s with
  | (Except.error e, s1) => (Except.error e, s1)
  | (Except.ok arg_ptr, s1) =>
    match run_thread_body os addr arg_ptr s1 with
    | (rb, sb) =>
      match release_remote_buffer os arg_ptr arg_data.length sb with
      | (Except.error e, sf) => (Except.error e, sf)
      | (Except.ok _, sf) => (rb, sf)

/-- `DLLInjector.load_library_into_target`: resolve `LoadLibraryA` in
`kernel32.dll`, run it remotely on the path bytes, and treat a 0 return as
a `DLLInjectionError` with no OS code. -/
def load_library_into_target (os : OS) (dll_bytes : List Nat) (s : St) :
    Except PyError Nat × St :=
  match get_func_address os ("kernel32.dll") ("LoadLibraryA") s with
  | (Except.error e, s1) => (Except.error e, s1)
  | (Except.ok func_ptr, s1) =>
    match run_remote_function os func_ptr dll_bytes s1 with
    | (Except.error e, s2) => (Except.error e, s2)
    | (Except.ok result, s2) =>
      if result = 0 then
        (Except.error (PyError.dllInjectionError none), s2)
      else
        (Except.ok result, s2)

/-- Python `str.encode("ascii")`: the code points when all are below 128,
otherwise a `UnicodeEncodeError`. -/
def encodeAscii (p : String) : Option (List Nat) :=
  if p.data.all (fun c => c.toNat < 128) then some (p.data.map Char.toNat)
  else none

/-- `DLLInjector.inject_shared_library`: check `os.path.exists` first and
raise `FileNotFoundError` for a missing file; otherwise encode the path as
ASCII (a `UnicodeEncodeError` from the encode is logged by the handler and
re-raised unchanged) and delegate to `load_library_into_target`.  The
filesystem is the oracle `fs`. -/
def inject_shared_library (os : OS) (fs : String → Bool) (dll_path : String) (s : St) :
    Except PyError Nat × St :=
  if fs dll_path = false then
    let s1 := logMsg s ("DLL file not found: " ++ dll_path)
    (Except.error (PyError.fileNotFoundError ("DLL file not found: " ++ dll_path)), s1)
  else
    let s1 := logMsg s ("Starting DLL injection: " ++ dll_path)
    match encodeAscii dll_path with
    | none =>
      (Except.error PyError.unicodeEncodeError, logMsg s1 ("DLL injection failed"))
    | some bytes =>
      match load_library_into_target os bytes s1 with
      | (Except.error e, s2) => (Except.error e, logMsg s2 ("DLL injection failed"))
      | (Except.ok r, s2) => (Except.ok r, logMsg s2 ("DLL injection successful"))

/-- `DLLInjector.resolve_func_offset`: `LoadLibraryA` locally (raising with
the OS code on NULL), then in a try block `GetProcAddress` and the offset
`func_ptr - temp_base`; the finally block always calls `FreeLibrary`, and a
failed unload is only logged as a warning, never raised. -/
def resolve_func_offset (os : OS) (module_path : List Nat) (func_name : String) (s : St) :
    Except PyError Nat × St :=
  let s1 := emit s (Event.loadLibraryA module_path)
  let temp_base := os.loadLibrary module_path
  if temp_base = 0 then
    (Except.error (PyError.dllInjectionError (some os.lastError)), s1)
  else
    let body : Except PyError Nat × St :=
      let s2 := emit s1 (Event.getProcAddress temp_base func_name)
      let func_ptr := os.procAddr temp_base func_name
      if func_ptr = 0 then
        (Except.error (PyError.dllInjectionError (some os.lastError)), s2)
      else
        (Except.ok (func_ptr - temp_base), s2)
    match body with
    | (rb, sb) =>
      let sb1 := emit sb (Event.freeLibrary temp_base)
      if os.freeLibOk temp_base then
        (rb, sb1)
      else
        (rb, logMsg sb1 ("Failed to unload temporary library (Error: " ++ toString os.lastError ++ ")"))

/-- True exactly on `closeHandle` trace events. -/
def isCloseHandleEvent : Event → Bool
  | Event.closeHandle _ => true
  | _ => false

/-- Number of `CloseHandle` calls recorded in a trace. -/
def closeHandleCount (t : List Event) : Nat :=
  (t.filter isCloseHandleEvent).length

/-- True exactly on the `DLLInjectionError` kind. -/
def isInjectionError : PyError → Bool
  | PyError.dllInjectionError _ => true
  | _ => false

/-- Did a call raise a `DLLInjectionError`? -/
def raisedInjectionError (r : Except PyError Nat) : Bool :=
  match r with
  | Except.error e => isInjectionError e
  | Except.ok _ => false

/-- Oracle on which every kernel32 call succeeds. -/
def osAllOk : OS where
  openProcess := fun _ _ => 1234
  closeOk := fun _ => true
  allocResult := fun _ => 4096
  writeOk := fun _ => true
  readOk := fun _ => true
  freeOk := fun _ => true
  createThreadResult := fun _ _ => 5678
  waitResult := fun _ => 0
  exitCodeOk := fun _ => true
  exitCodeValue := fun _ => 42
  getModuleHandle := fun _ => 0x77000000
  procAddr := fun _ _ => 0x77001000
  loadLibrary := fun _ => 0x10000000
  freeLibOk := fun _ => true
  lastError := 5

/-- Oracle on which `WriteProcessMemory` fails and all else succeeds. -/
def osWriteFail : OS := { osAllOk with writeOk := fun _ => false }

/-- Oracle on which `CloseHandle` fails and all else succeeds. -/
def osCloseFail : OS := { osAllOk with closeOk := fun _ => false }

/-- Oracle on which `OpenProcess` returns NULL and all else succeeds. -/
def osOpenFail : OS := { osAllOk with openProcess := fun _ _ => 0 }

/-- Freshly initialized injector state: no pid, no handle, empty world. -/
def st0 : St where
  processId := 0
  procHandle := 0
  mem := []
  allocated := []
  trace := []
  logs := []

/-- State of an injector attached to pid 1234 with process handle 7. -/
def stAttached : St := { st0 with processId := 1234, procHandle := 7 }

/-- Claim C10: the outcome of `release_remote_buffer` is independent of its
`length` argument: for every address and any two length values the OS free
call is `VirtualFreeEx` with size zero and the MEM_RELEASE flag, the two
runs succeed or fail identically with identical OS traces, memory,
allocation sets and handle state; `length` only enters the log line. -/
theorem release_remote_buffer_length_independent (os : OS) (s : St) (addr l1 l2 : Nat) :
    (release_remote_buffer os addr l1 s).1 = (release_remote_buffer os addr l2 s).1 ∧
    (release_remote_buffer os addr l1 s).2.trace =
      s.trace ++ [Event.virtualFreeEx s.procHandle addr 0 FREE_MEM] ∧
    (release_remote_buffer os addr l2 s).2.trace = (release_remote_buffer os addr l1 s).2.trace ∧
    (release_remote_buffer os addr l2 s).2.procHandle = (release_remote_buffer os addr l1 s).2.procHandle ∧
    (release_remote_buffer os addr l2 s).2.mem = (release_remote_buffer os addr l1 s).2.mem ∧
    (release_remote_buffer os addr l2 s).2.allocated = (release_remote_buffer os addr l1 s).2.allocated := by
  by_cases h : os.freeOk addr = true <;>
    simp [release_remote_buffer, logMsg, emit, h]

/-- Claim C6: for every path missing from the filesystem,
`inject_shared_library` fails with `FileNotFoundError` before any remote
operation: no OS call is traced and the modelled target-process state
(memory, allocations) and the handle are unchanged. -/
theorem inject_shared_library_missing_file (os : OS) (fs : String → Bool)
    (dll_path : String) (s : St) (hfs : fs dll_path = false) :
    (inject_shared_library os fs dll_path s).1 =
      Except.error (PyError.fileNotFoundError ("DLL file not found: " ++ dll_path)) ∧
    (inject_shared_library os fs dll_path s).2.trace = s.trace ∧
    (inject_shared_library os fs dll_path s).2.mem = s.mem ∧
    (inject_shared_library os fs dll_path s).2.allocated = s.allocated ∧
    (inject_shared_library os fs dll_path s).2.procHandle = s.procHandle := by
  simp [inject_shared_library, hfs, logMsg]

/-- Witness for C6 at a concrete missing path on the all-success oracle. -/
theorem inject_shared_library_missing_file_witness :
    (inject_shared_library osAllOk (fun _ => false) ("missing.dll") st0).1 =
      Except.error (PyError.fileNotFoundError ("DLL file not found: " ++ "missing.dll")) ∧
    (inject_shared_library osAllOk (fun _ => false) ("missing.dll") st0).2.trace = st0.trace :=
  ⟨(inject_shared_library_missing_file osAllOk (fun _ => false) ("missing.dll") st0 rfl).1,
   (inject_shared_library_missing_file osAllOk (fun _ => false) ("missing.dll") st0 rfl).2.1⟩

/-- Counterexample to claim C1: on an oracle where allocation succeeds at
address 4096 and the subsequent write fails, `allocate_remote_buffer`
raises `DLLInjectionError` while 4096 is still allocated and no
`VirtualFreeEx` call was ever issued — the allocation leaks, contradicting
the claim that it is released before the error propagates. -/
theorem allocate_remote_buffer_write_failure_leak_example :
    (allocate_remote_buffer osWriteFail [1] 1 stAttached).1 =
      Except.error (PyError.dllInjectionError (some 5)) ∧
    4096 ∈ (allocate_remote_buffer osWriteFail [1] 1 stAttached).2.allocated ∧
    Event.virtualFreeEx 7 4096 0 FREE_MEM ∉
      (allocate_remote_buffer osWriteFail [1] 1 stAttached).2.trace := by
  decide

/-- Claim C1 (amended): for every byte buffer, if `allocate_remote_buffer`
succeeds in allocating the remote region but the subsequent write fails,
the operation raises `DLLInjectionError`, but the allocation just made is
NOT released before the error propagates: the address stays in the
allocation set and the trace records only the allocation and the failed
write, with no free call. -/
theorem allocate_remote_buffer_write_failure_leaks (os : OS) (data : List Nat)
    (length : Nat) (s : St) (ha : os.allocResult length ≠ 0)
    (hw : os.writeOk (os.allocResult length) = false) :
    (allocate_remote_buffer os data length s).1 =
      Except.error (PyError.dllInjectionError (some os.lastError)) ∧
    (allocate_remote_buffer os data length s).2.allocated =
      s.allocated ++ [os.allocResult length] ∧
    (allocate_remote_buffer os data length s).2.trace = s.trace ++
      [Event.virtualAllocEx s.procHandle length MEM_FLAGS RWX_PERMISSIONS,
       Event.writeProcessMemory s.procHandle (os.allocResult length) data] := by
  simp [allocate_remote_buffer, write_to_memory, emit, ha, hw]

/-- Witness for the amended C1 on the write-failure oracle. -/
theorem allocate_remote_buffer_write_failure_leaks_witness :
    (allocate_remote_buffer osWriteFail [9, 9] 2 stAttached).1 =
      Except.error (PyError.dllInjectionError (some 5)) ∧
    (allocate_remote_buffer osWriteFail [9, 9] 2 stAttached).2.allocated =
      stAttached.allocated ++ [4096] :=
  ⟨(allocate_remote_buffer_write_failure_leaks osWriteFail [9, 9] 2 stAttached
      (by decide) (by decide)).1,
   (allocate_remote_buffer_write_failure_leaks osWriteFail [9, 9] 2 stAttached
      (by decide) (by decide)).2.1⟩

/-- Counterexample to claim C3: for the existing path "é.dll" holding a
non-ASCII character, `inject_shared_library` raises, but the raised
exception is `UnicodeEncodeError` from the ASCII encode — not any
`DLLInjectionError`. -/
theorem inject_shared_library_nonascii_example :
    (inject_shared_library osAllOk (fun _ => true) ("é.dll") st0).1 =
      Except.error PyError.unicodeEncodeError ∧
    raisedInjectionError (inject_shared_library osAllOk (fun _ => true) ("é.dll") st0).1 = false := by
  decide

/-- Claim C3 (amended): for every existing library path containing a
non-ASCII character, `inject_shared_library` fails fast before any remote
operation (the trace is unchanged), but the exception is the
`UnicodeEncodeError` raised by the ASCII encode and re-raised unchanged by
the handler, not a `DLLInjectionError`. -/
theorem inject_shared_library_nonascii (os : OS) (fs : String → Bool)
    (dll_path : String) (s : St) (hfs : fs dll_path = true)
    (hna : dll_path.data.all (fun c => c.toNat < 128) = false) :
    (inject_shared_library os fs dll_path s).1 = Except.error PyError.unicodeEncodeError ∧
    raisedInjectionError (inject_shared_library os fs dll_path s).1 = false ∧
    (inject_shared_library os fs dll_path s).2.trace = s.trace := by
  simp [inject_shared_library, hfs, encodeAscii, hna, logMsg, raisedInjectionError,
    isInjectionError]

/-- Witness for the amended C3 at the concrete non-ASCII path. -/
theorem inject_shared_library_nonascii_witness :
    (inject_shared_library osAllOk (fun _ => true) ("é.dll") stAttached).1 =
      Except.error PyError.unicodeEncodeError ∧
    (inject_shared_library osAllOk (fun _ => true) ("é.dll") stAttached).2.trace =
      stAttached.trace :=
  ⟨(inject_shared_library_nonascii osAllOk (fun _ => true) ("é.dll") stAttached
      rfl (by decide)).1,
   (inject_shared_library_nonascii osAllOk (fun _ => true) ("é.dll") stAttached
      rfl (by decide)).2.2⟩

/-- On a state holding no handle, `cleanup` is a silent no-op. -/
lemma cleanup_noop (os : OS) (s : St) (h : s.procHandle = 0) :
    cleanup os s = (Except.ok (), s) := by
  cases s with
  | mk pid ph mem alloc tr lg =>
    simp only [St.procHandle] at h
    subst h
    simp [cleanup]

/-- A successful `cleanup` leaves no handle behind. -/
lemma cleanup_ok_handle (os : OS) (s : St) (h : (cleanup os s).1 = Except.ok ()) :
    (cleanup os s).2.procHandle = 0 := by
  by_cases h0 : s.procHandle = 0 <;> by_cases hc : os.closeOk s.procHandle = true <;>
    simp_all [cleanup, emit, logMsg]

/-- Claim C4: `cleanup` is idempotent: on a never-opened or already-closed
handle it is a silent no-op returning the state unchanged; after a
successful `cleanup` a second call never raises and changes nothing; and it
raises only `DLLInjectionError`, only when the OS-level `CloseHandle` call
itself fails on a live handle. -/
theorem cleanup_is_idempotent (os : OS) (s : St) :
    (s.procHandle = 0 → cleanup os s = (Except.ok (), s)) ∧
    ((cleanup os s).1 = Except.ok () →
      cleanup os (cleanup os s).2 = (Except.ok (), (cleanup os s).2)) ∧
    (∀ e, (cleanup os s).1 = Except.error e →
      s.procHandle ≠ 0 ∧ os.closeOk s.procHandle = false ∧
      e = PyError.dllInjectionError (some os.lastError)) := by
  refine ⟨fun h => cleanup_noop os s h,
    fun h => cleanup_noop os _ (cleanup_ok_handle os s h), fun e h => ?_⟩
  by_cases h0 : s.procHandle = 0
  · rw [cleanup_noop os s h0] at h
    simp at h
  · by_cases hc : os.closeOk s.procHandle = true
    · simp [cleanup, h0, hc, emit, logMsg] at h
    · rw [Bool.not_eq_true] at hc
      refine ⟨h0, hc, ?_⟩
      simp [cleanup, h0, hc, emit, logMsg] at h
      exact h.symm

/-- Witness for C4: on the fresh state the no-op part applies, and after a
successful close of a live handle the second call is a no-op. -/
theorem cleanup_is_idempotent_witness :
    cleanup osAllOk st0 = (Except.ok (), st0) ∧
    cleanup osAllOk (cleanup osAllOk stAttached).2 =
      (Except.ok (), (cleanup osAllOk stAttached).2) :=
  ⟨(cleanup_is_idempotent osAllOk st0).1 rfl,
   (cleanup_is_idempotent osAllOk stAttached).2.1 (by decide)⟩

/-- Claim C9: when the OS-level close inside `cleanup` fails, the
`DLLInjectionError` is raised before the handle field is cleared: the
stored handle is unchanged (still attached to the same live handle) and a
subsequent `cleanup` retries `CloseHandle` on that very handle. -/
theorem cleanup_error_preserves_handle (os : OS) (s : St) (e : PyError)
    (h : (cleanup os s).1 = Except.error e) :
    (cleanup os s).2.procHandle = s.procHandle ∧
    s.procHandle ≠ 0 ∧
    (cleanup os (cleanup os s).2).2.trace =
      (cleanup os s).2.trace ++ [Event.closeHandle s.procHandle] := by
  by_cases h0 : s.procHandle = 0
  · rw [cleanup_noop os s h0] at h
    simp at h
  · by_cases hc : os.closeOk s.procHandle = true
    · simp [cleanup, h0, hc, emit, logMsg] at h
    · rw [Bool.not_eq_true] at hc
      refine ⟨?_, h0, ?_⟩ <;> simp [cleanup, h0, hc, emit, logMsg]

/-- Witness for C9 on the close-failure oracle and an attached state. -/
theorem cleanup_error_preserves_handle_witness :
    (cleanup osCloseFail stAttached).2.procHandle = stAttached.procHandle ∧
    stAttached.procHandle ≠ 0 ∧
    (cleanup osCloseFail (cleanup osCloseFail stAttached).2).2.trace =
      (cleanup osCloseFail stAttached).2.trace ++ [Event.closeHandle stAttached.procHandle] :=
  cleanup_error_preserves_handle osCloseFail stAttached
    (PyError.dllInjectionError (some 5)) (by decide)

/-- Claim C5: on an injector already holding a handle (whose close
succeeds), `attach_to_pid` issues `CloseHandle` on the old handle before
`OpenProcess` on the new pid — replacing, not leaking — and stores the new
handle; when the OS denies access or the pid does not exist (NULL handle),
it raises `ProcessAccessError` carrying the OS-reported error code. -/
theorem attach_to_pid_replaces_handle (os : OS) (pid : Nat) (s : St)
    (h0 : s.procHandle ≠ 0) (hc : os.closeOk s.procHandle = true) :
    (attach_to_pid os pid s).2.trace =
      s.trace ++ [Event.closeHandle s.procHandle, Event.openProcess ACCESS_MASK pid] ∧
    (attach_to_pid os pid s).2.procHandle = os.openProcess ACCESS_MASK pid ∧
    (os.openProcess ACCESS_MASK pid = 0 →
      (attach_to_pid os pid s).1 = Except.error (PyError.processAccessError os.lastError)) ∧
    (os.openProcess ACCESS_MASK pid ≠ 0 → (attach_to_pid os pid s).1 = Except.ok ()) := by
  by_cases ho : os.openProcess ACCESS_MASK pid = 0 <;>
    simp [attach_to_pid, cleanup, h0, hc, emit, logMsg, ho]

/-- Witness for C5: re-attachment on the open-failure oracle closes the
old handle 7 first and raises `ProcessAccessError` with code 5. -/
theorem attach_to_pid_replaces_handle_witness :
    (attach_to_pid osOpenFail 999 stAttached).2.trace =
      stAttached.trace ++ [Event.closeHandle 7, Event.openProcess ACCESS_MASK 999] ∧
    (attach_to_pid osOpenFail 999 stAttached).1 =
      Except.error (PyError.processAccessError 5) := by
  have h := attach_to_pid_replaces_handle osOpenFail 999 stAttached (by decide) (by decide)
  exact ⟨h.1, h.2.2.1 (by decide)⟩

/-- Cells below the store window are untouched by `storeBytes`. -/
lemma readByte_storeBytes_lt : ∀ (payload : List Nat) (mem : List (Nat × Nat)) (addr a : Nat),
    a < addr → readByte (storeBytes mem addr payload) a = readByte mem a
  | [], _, _, _, _ => rfl
  | b :: rest, mem, addr, a, h => by
    show readByte (storeBytes ((addr, b) :: mem) (addr + 1) rest) a = readByte mem a
    rw [readByte_storeBytes_lt rest ((addr, b) :: mem) (addr + 1) a (Nat.lt_succ_of_lt h)]
    have hne : ((addr, b).1 == a) = false := by
      simp only [beq_eq_false_iff_ne, ne_eq]
      omega
    simp [readByte, List.find?, hne]

/-- Reading the i-th cell of a freshly stored window returns the i-th
stored byte. -/
lemma readByte_storeBytes_get : ∀ (payload : List Nat) (mem : List (Nat × Nat)) (addr i : Nat)
    (h : i < payload.length),
    readByte (storeBytes mem addr payload) (addr + i) = payload.get ⟨i, h⟩
  | [], _, _, _, h => absurd h (by simp)
  | b :: rest, mem, addr, 0, _ => by
    show readByte (storeBytes ((addr, b) :: mem) (addr + 1) rest) (addr + 0) = b
    rw [readByte_storeBytes_lt rest ((addr, b) :: mem) (addr + 1) (addr + 0) (by omega)]
    simp [readByte, List.find?]
  | b :: rest, mem, addr, i + 1, h => by
    show readByte (storeBytes ((addr, b) :: mem) (addr + 1) rest) (addr + (i + 1)) = _
    have hs : addr + (i + 1) = (addr + 1) + i := by omega
    rw [hs, readByte_storeBytes_get rest ((addr, b) :: mem) (addr + 1) i (by simpa using h)]
    simp

/-- Round trip over the modelled remote memory: storing a buffer and
reading back the same window returns exactly the buffer. -/
lemma readBytes_storeBytes (payload : List Nat) (mem : List (Nat × Nat)) (addr : Nat) :
    readBytes (storeBytes mem addr payload) addr payload.length = payload := by
  apply List.ext_getElem
  · simp [readBytes]
  · intro i h1 h2
    simp only [readBytes, List.getElem_map, List.getElem_range]
    exact readByte_storeBytes_get payload mem addr i h2

/-- Claim C7: for every byte buffer, a successful `allocate_remote_buffer`
of the buffer followed by `read_memory_region` at the returned address with
the buffer length returns exactly the buffer. -/
theorem allocate_then_read_roundtrip (os : OS) (data : List Nat) (s : St) (addr : Nat)
    (h : (allocate_remote_buffer os data data.length s).1 = Except.ok addr)
    (hr : os.readOk addr = true) :
    (read_memory_region os addr data.length (allocate_remote_buffer os data data.length s).2).1 =
      Except.ok data := by
  by_cases ha : os.allocResult data.length = 0
  · simp [allocate_remote_buffer, ha] at h
  · by_cases hw : os.writeOk (os.allocResult data.length) = true
    · have haddr : addr = os.allocResult data.length := by
        simp [allocate_remote_buffer, write_to_memory, emit, ha, hw] at h
        exact h.symm
      have hmem : (allocate_remote_buffer os data data.length s).2.mem =
          storeBytes s.mem (os.allocResult data.length) data := by
        simp [allocate_remote_buffer, write_to_memory, emit, ha, hw]
      subst haddr
      simp [read_memory_region, emit, hr, hmem]
      exact readBytes_storeBytes data s.mem _
    · simp [allocate_remote_buffer, write_to_memory, emit, ha, hw] at h

/-- Witness for C7 on the all-success oracle with buffer [1, 2, 3]. -/
theorem allocate_then_read_roundtrip_witness :
    (read_memory_region osAllOk 4096 ([1, 2, 3] : List Nat).length
        (allocate_remote_buffer osAllOk [1, 2, 3] ([1, 2, 3] : List Nat).length stAttached).2).1 =
      Except.ok [1, 2, 3] :=
  allocate_then_read_roundtrip osAllOk [1, 2, 3] stAttached 4096 (by decide) (by decide)

/-- Claim C8: when the local load succeeds, `resolve_func_offset` returns
the symbol address minus the local base on success, raises
`DLLInjectionError` when the symbol lookup fails, and in both cases the
temporary local library is unloaded (`FreeLibrary` is traced); a failing
unload is logged as a warning but never raises and never replaces the
primary outcome — the stated results hold whatever `FreeLibrary` returns. -/
theorem resolve_func_offset_always_unloads (os : OS) (module_path : List Nat)
    (func_name : String) (s : St) (hl : os.loadLibrary module_path ≠ 0) :
    Event.freeLibrary (os.loadLibrary module_path) ∈
      (resolve_func_offset os module_path func_name s).2.trace ∧
    (os.procAddr (os.loadLibrary module_path) func_name ≠ 0 →
      (resolve_func_offset os module_path func_name s).1 =
        Except.ok (os.procAddr (os.loadLibrary module_path) func_name -
          os.loadLibrary module_path)) ∧
    (os.procAddr (os.loadLibrary module_path) func_name = 0 →
      (resolve_func_offset os module_path func_name s).1 =
        Except.error (PyError.dllInjectionError (some os.lastError))) ∧
    (os.freeLibOk (os.loadLibrary module_path) = false →
      ("Failed to unload temporary library (Error: " ++ toString os.lastError ++ ")") ∈
        (resolve_func_offset os module_path func_name s).2.logs) := by
  by_cases hp : os.procAddr (os.loadLibrary module_path) func_name = 0 <;>
    by_cases hf : os.freeLibOk (os.loadLibrary module_path) = true <;>
      simp [resolve_func_offset, hl, hp, hf, emit, logMsg]

/-- Witness for C8 on the all-success oracle: the temporary module is
freed and the returned offset is the symbol address minus the base. -/
theorem resolve_func_offset_always_unloads_witness :
    Event.freeLibrary 0x10000000 ∈
      (resolve_func_offset osAllOk [97] ("f") st0).2.trace ∧
    (resolve_func_offset osAllOk [97] ("f") st0).1 =
      Except.ok (0x77001000 - 0x10000000) := by
  have h := resolve_func_offset_always_unloads osAllOk [97] ("f") st0 (by decide)
  exact ⟨h.1, h.2.1 (by decide)⟩

/-- Counting `CloseHandle` events distributes over trace concatenation. -/
lemma closeHandleCount_append (t1 t2 : List Event) :
    closeHandleCount (t1 ++ t2) = closeHandleCount t1 + closeHandleCount t2 := by
  simp [closeHandleCount, List.filter_append]

/-- `write_to_memory` records no `CloseHandle` call. -/
lemma closeHandleCount_write_to_memory (os : OS) (a : Nat) (p : List Nat) (s : St) :
    closeHandleCount (write_to_memory os a p s).2.trace = closeHandleCount s.trace := by
  by_cases h : os.writeOk a = true <;>
    simp [write_to_memory, emit, h, closeHandleCount_append, closeHandleCount, isCloseHandleEvent]

/-- `allocate_remote_buffer` records no `CloseHandle` call. -/
lemma closeHandleCount_allocate (os : OS) (d : List Nat) (len : Nat) (s : St) :
    closeHandleCount (allocate_remote_buffer os d len s).2.trace = closeHandleCount s.trace := by
  unfold allocate_remote_buffer
  by_cases ha : os.allocResult len = 0
  · simp [ha, emit, closeHandleCount_append, closeHandleCount, isCloseHandleEvent]
  · simp only [ha, if_false]
    split
    case _ e s3 heq =>
      have h2 := congrArg (fun p => closeHandleCount (Prod.snd p).trace) heq
      simp only [closeHandleCount_write_to_memory] at h2
      simp [emit, closeHandleCount_append, List.filter_append, closeHandleCount,
        isCloseHandleEvent] at h2
      simpa using h2.symm
    case _ a s3 heq =>
      have h2 := congrArg (fun p => closeHandleCount (Prod.snd p).trace) heq
      simp only [closeHandleCount_write_to_memory] at h2
      simp [emit, closeHandleCount_append, List.filter_append, closeHandleCount,
        isCloseHandleEvent] at h2
      simpa using h2.symm

/-- `release_remote_buffer` records no `CloseHandle` call. -/
lemma closeHandleCount_release (os : OS) (a len : Nat) (s : St) :
    closeHandleCount (release_remote_buffer os a len s).2.trace = closeHandleCount s.trace := by
  by_cases h : os.freeOk a = true <;>
    simp [release_remote_buffer, emit, logMsg, h, closeHandleCount_append,
      closeHandleCount, isCloseHandleEvent]

/-- The try-block of `run_remote_function` records no `CloseHandle` call. -/
lemma closeHandleCount_run_thread_body (os : OS) (addr arg_ptr : Nat) (s : St) :
    closeHandleCount (run_thread_body os addr arg_ptr s).2.trace = closeHandleCount s.trace := by
  by_cases ht : os.createThreadResult addr arg_ptr = 0 <;>
    by_cases hw : os.waitResult (os.createThreadResult addr arg_ptr) = 0xFFFFFFFF <;>
      by_cases he : os.exitCodeOk (os.createThreadResult addr arg_ptr) = true <;>
        simp [run_thread_body, emit, ht, hw, he, closeHandleCount_append,
          closeHandleCount, isCloseHandleEvent]

/-- Counterexample to claim C2: on the all-success oracle the remote
thread 5678 is created, waited on and reaped, the call returns its exit
code 42 — and no `CloseHandle` on the thread handle ever appears in the
trace: the thread handle is not closed even on the success path. -/
theorem run_remote_function_thread_not_closed_example :
    (run_remote_function osAllOk 100 [1, 2] stAttached).1 = Except.ok 42 ∧
    Event.createRemoteThread 7 100 4096 ∈
      (run_remote_function osAllOk 100 [1, 2] stAttached).2.trace ∧
    Event.closeHandle 5678 ∉
      (run_remote_function osAllOk 100 [1, 2] stAttached).2.trace := by
  decide

/-- Claim C2 (amended): `run_remote_function` never closes any handle: on
the success path and on every failure path (thread-creation, wait, or
exit-code-retrieval failure, whatever the oracle decides) the number of
`CloseHandle` calls in the trace is unchanged, so the created thread
handle is never reclaimed and leaks. -/
theorem run_remote_function_never_closes_handles (os : OS) (addr : Nat)
    (arg_data : List Nat) (s : St) :
    closeHandleCount (run_remote_function os addr arg_data s).2.trace =
      closeHandleCount s.trace := by
  unfold run_remote_function
  split
  case _ e s1 heq =>
    have h2 := congrArg (fun p => closeHandleCount (Prod.snd p).trace) heq
    simp only [closeHandleCount_allocate] at h2
    simpa using h2.symm
  case _ arg_ptr s1 heq =>
    have h1 := congrArg (fun p => closeHandleCount (Prod.snd p).trace) heq
    simp only [closeHandleCount_allocate] at h1
    rcases hb : run_thread_body os addr arg_ptr s1 with ⟨rb, sb⟩
    have h3 := congrArg (fun p => closeHandleCount (Prod.snd p).trace) hb
    simp only [closeHandleCount_run_thread_body] at h3
    show closeHandleCount
        (match release_remote_buffer os arg_ptr arg_data.length sb with
          | (Except.error e, sf) => (Except.error e, sf)
          | (Except.ok _, sf) => (rb, sf)).2.trace = closeHandleCount s.trace
    rcases hr : release_remote_buffer os arg_ptr arg_data.length sb with ⟨rr, sr⟩
    have h4 := congrArg (fun p => closeHandleCount (Prod.snd p).trace) hr
    simp only [closeHandleCount_release] at h4
    cases rr
    · show closeHandleCount sr.trace = closeHandleCount s.trace
      omega
    · show closeHandleCount sr.trace = closeHandleCount s.trace
      omega

end DLLInjector
